import Mathlib

/-!
Verification of the roboptim HS71 tutorial program (`src/003-hs71/003-hs71.cc`).

The program defines three twice-differentiable functions `F`, `G0`, `G1`
(objective and the two constraints of the HS71 benchmark), assembles a
problem (argument bounds, starting point, two constraints), dispatches it
to a solver backend, and switches over the four tags of the returned result
variant.

All numeric code in the source uses only `+`, `*` and literal constants, so
it is embedded exactly over `ℚ`.  Argument vectors are `Fin 4 → ℚ`, result
vectors `Fin 1 → ℚ`, Hessians `Matrix (Fin 4) (Fin 4) ℚ`.  Exact partial
derivatives are expressed through `MvPolynomial.pderiv` over `ℚ`.
-/

namespace HS71

/-- Identity of the three concrete functions defined in the source file. -/
inductive Func where
  | F : Func
  | G0 : Func
  | G1 : Func
deriving DecidableEq

/-- Input size declared by each constructor call
`TwiceDifferentiableFunction (4, 1, name)`. -/
def Func.inputSize : Func → ℕ
  | .F => 4
  | .G0 => 4
  | .G1 => 4

/-- Output size declared by each constructor call
`TwiceDifferentiableFunction (4, 1, name)`. -/
def Func.outputSize : Func → ℕ
  | .F => 1
  | .G0 => 1
  | .G1 => 1

namespace F

/-- Embeds `F::impl_compute`: `result[0] = x[0] * x[3] * (x[0] + x[1] + x[2]) + x[2]`. -/
def impl_compute (x : Fin 4 → ℚ) : Fin 1 → ℚ :=
  fun _ => x 0 * x 3 * (x 0 + x 1 + x 2) + x 2

/-- Embeds `F::impl_gradient` (the four components streamed by `grad <<`). -/
def impl_gradient (x : Fin 4 → ℚ) : Fin 4 → ℚ :=
  ![x 0 * x 3 + x 3 * (x 0 + x 1 + x 2),
    x 0 * x 3,
    x 0 * x 3 + 1,
    x 0 * (x 0 + x 1 + x 2)]

/-- Embeds `F::impl_hessian` (the sixteen entries streamed row-major by `h <<`). -/
def impl_hessian (x : Fin 4 → ℚ) : Matrix (Fin 4) (Fin 4) ℚ :=
  !![2 * x 3,               x 3, x 3, 2 * x 0 + x 1 + x 2;
     x 3,                   0,   0,   x 0;
     x 3,                   0,   0,   x 1;
     2 * x 0 + x 1 + x 2,   x 0, x 0, 0]

end F

namespace G0

/-- Embeds `G0::impl_compute`: `result[0] = x[0] * x[1] * x[2] * x[3]`. -/
def impl_compute (x : Fin 4 → ℚ) : Fin 1 → ℚ :=
  fun _ => x 0 * x 1 * x 2 * x 3

/-- Embeds `G0::impl_gradient`. -/
def impl_gradient (x : Fin 4 → ℚ) : Fin 4 → ℚ :=
  ![x 1 * x 2 * x 3,
    x 0 * x 2 * x 3,
    x 0 * x 1 * x 3,
    x 0 * x 1 * x 2]

/-- Embeds `G0::impl_hessian` (row-major entries of `h <<`). -/
def impl_hessian (x : Fin 4 → ℚ) : Matrix (Fin 4) (Fin 4) ℚ :=
  !![0,           x 2 * x 3, x 1 * x 3, x 1 * x 2;
     x 2 * x 3,   0,         x 0 * x 3, x 0 * x 2;
     x 1 * x 3,   x 0 * x 3, 0,         x 0 * x 1;
     x 1 * x 2,   x 0 * x 2, x 0 * x 1, 0]

end G0

namespace G1

/-- Embeds `G1::impl_compute`:
`result[0] = x[0]*x[0] + x[1]*x[1] + x[2]*x[2] + x[3]*x[3]`. -/
def impl_compute (x : Fin 4 → ℚ) : Fin 1 → ℚ :=
  fun _ => x 0 * x 0 + x 1 * x 1 + x 2 * x 2 + x 3 * x 3

/-- Embeds `G1::impl_gradient`: `grad = 2 * x`. -/
def impl_gradient (x : Fin 4 → ℚ) : Fin 4 → ℚ :=
  fun i => 2 * x i

/-- Embeds `G1::impl_hessian` (the constant matrix `2 * I`). -/
def impl_hessian (_x : Fin 4 → ℚ) : Matrix (Fin 4) (Fin 4) ℚ :=
  !![2, 0, 0, 0;
     0, 2, 0, 0;
     0, 0, 2, 0;
     0, 0, 0, 2]

end G1

open MvPolynomial in
/-- Polynomial form of the objective `F`: `x₀ x₃ (x₀ + x₁ + x₂) + x₂`,
written exactly as in `F::impl_compute`. -/
noncomputable def fPoly : MvPolynomial (Fin 4) ℚ := X 0 * X 3 * (X 0 + X 1 + X 2) + X 2

open MvPolynomial in
/-- Polynomial form of the first constraint `G0`: `x₀ x₁ x₂ x₃`. -/
noncomputable def g0Poly : MvPolynomial (Fin 4) ℚ := X 0 * X 1 * X 2 * X 3

open MvPolynomial in
/-- Polynomial form of the second constraint `G1`: `x₀² + x₁² + x₂² + x₃²`. -/
noncomputable def g1Poly : MvPolynomial (Fin 4) ℚ :=
  X 0 * X 0 + X 1 * X 1 + X 2 * X 2 + X 3 * X 3

/-- Bound interval.  `none` stands for an infinite endpoint, matching
roboptim's use of `-infinity` / `+infinity` doubles. -/
structure Interval where
  lower : Option ℚ
  upper : Option ℚ
deriving DecidableEq

/-- Embeds `Function::makeInterval (l, u)`: the two-sided interval `[l, u]`. -/
def makeInterval (l u : ℚ) : Interval := ⟨some l, some u⟩

/-- Embeds `Function::makeLowerInterval (l)`: the interval `[l, +oo)`. -/
def makeLowerInterval (l : ℚ) : Interval := ⟨some l, none⟩

/-- Embeds `Function::makeInfiniteInterval ()`: the interval `(-oo, +oo)`. -/
def makeInfiniteInterval : Interval := ⟨none, none⟩

/-- Membership of a value in an interval, infinite endpoints imposing no
restriction. -/
def Interval.contains (I : Interval) (v : ℚ) : Bool :=
  (match I.lower with
    | none => true
    | some l => decide (l ≤ v)) &&
  (match I.upper with
    | none => true
    | some u => decide (v ≤ u))

/-- A constraint entry of the problem: a function together with one bound
interval and one scale per output component. -/
structure Constraint where
  func : Func
  bounds : List Interval
  scales : List ℚ
deriving DecidableEq

/-- The problem container: objective, ordered constraint sequence, one bound
interval per argument, optional starting point. -/
structure Problem where
  objective : Func
  constraints : List Constraint
  argumentBounds : List Interval
  startingPoint : Option (List ℚ)
deriving DecidableEq

/-- Modelled from the spec: constructing a `Problem` from an objective gives
an empty constraint sequence, one (initially unrestricted) bound interval
per input variable, and no starting point yet. -/
def Problem.ofObjective (f : Func) : Problem :=
  ⟨f, [], List.replicate f.inputSize makeInfiniteInterval, none⟩

/-- Modelled from the spec: `setArgumentBound i interval` overwrites the
bound at variable position `i` (cf. `pb.argumentBounds ()[i] = ...`). -/
def Problem.setArgumentBound (p : Problem) (i : ℕ) (b : Interval) : Problem :=
  { p with argumentBounds := p.argumentBounds.set i b }

/-- Modelled from the spec: `setStartingPoint` stores the starting vector
(cf. `pb.startingPoint () = start`). -/
def Problem.setStartingPoint (p : Problem) (s : List ℚ) : Problem :=
  { p with startingPoint := some s }

/-- Modelled from the spec: `addConstraint` appends to the constraint
sequence, preserving insertion order. -/
def Problem.addConstraint (p : Problem) (g : Func) (bounds : List Interval)
    (scales : List ℚ) : Problem :=
  { p with constraints := p.constraints ++ [⟨g, bounds, scales⟩] }

/-- State of the problem right after `solver_t::problem_t pb (f)` in `main`. -/
def pb0 : Problem := Problem.ofObjective Func.F

/-- State after the bound-setting loop in `main`: every argument bound is
overwritten with `makeInterval (1., 5.)` for `i < pb.function ().inputSize ()`. -/
def pb1 : Problem :=
  (List.range pb0.objective.inputSize).foldl
    (fun p i => p.setArgumentBound i (makeInterval 1 5)) pb0

/-- State after `pb.startingPoint () = start` with `start = (1, 5, 5, 1)`. -/
def pb2 : Problem := pb1.setStartingPoint [1, 5, 5, 1]

/-- State after the first `pb.addConstraint` call: `g0` with bounds
`[makeLowerInterval (25.)]` and scales `[1.]`. -/
def pb3 : Problem := pb2.addConstraint Func.G0 [makeLowerInterval 25] [1]

/-- State after the second `pb.addConstraint` call: `g1` with bounds
`[makeInterval (40., 40.)]` and scales `[1.]`; this is the problem handed to
the solver factory. -/
def pb4 : Problem := pb3.addConstraint Func.G1 [makeInterval 40 40] [1]

/-- Invariant of the spec: the objective has a one-dimensional output and
every constraint function shares the objective's input size. -/
def Problem.invariantHolds (p : Problem) : Prop :=
  p.objective.outputSize = 1 ∧
  ∀ c ∈ p.constraints, c.func.inputSize = p.objective.inputSize

instance (p : Problem) : Decidable p.invariantHolds := by
  unfold Problem.invariantHolds
  infer_instance

/-- The starting point of `main` as an argument vector. -/
def startVec : Fin 4 → ℚ := ![1, 5, 5, 1]

/-- Payload of a successful solve: a point and the objective value there
(the `Result` alternative of the variant). -/
structure SolvedPayload where
  point : List ℚ
  value : ℚ
deriving DecidableEq

/-- Modelled from the spec: the result of `minimum ()` is a tagged union
with exactly four alternatives — `NoSolution` with no payload, `Result`
(here `value`), `ResultWithWarnings` (here `valueWarnings`, additionally
carrying warning strings), and `SolverError` (here `error`, carrying a
message).  The constructor order matches the `SOLVER_NO_SOLUTION`,
`SOLVER_VALUE`, `SOLVER_VALUE_WARNINGS`, `SOLVER_ERROR` tags switched on by
`main` via `res.which ()`. -/
inductive SolverResult where
  | noSolution : SolverResult
  | value : SolvedPayload → SolverResult
  | valueWarnings : SolvedPayload → List String → SolverResult
  | error : String → SolverResult
deriving DecidableEq

/-- Modelled from the spec: extraction of the `Result` alternative
(`boost::get<Result> (res)`); it succeeds exactly when the variant
currently holds that alternative and raises otherwise (`none`). -/
def getValue : SolverResult → Option SolvedPayload
  | .value r => some r
  | _ => none

/-- Modelled from the spec: extraction of the `ResultWithWarnings`
alternative (`boost::get<ResultWithWarnings> (res)`). -/
def getValueWarnings : SolverResult → Option (SolvedPayload × List String)
  | .valueWarnings r w => some (r, w)
  | _ => none

/-- Modelled from the spec: extraction of the `SolverError` alternative
(`boost::get<SolverError> (res)`); only an `error`-tagged variant holds a
`SolverError`, any other tag raises (`none`). -/
def getSolverError : SolverResult → Option String
  | .error msg => some msg
  | _ => none

/-- How control leaves the tail of `main`: a `return` statement inside the
switch, an exception propagating out of a case body, or falling through the
switch to the trailing `assert (0); return 42;`. -/
inductive SwitchOutcome where
  | returned : ℤ → SwitchOutcome
  | raised : SwitchOutcome
  | fellThrough : SwitchOutcome
deriving DecidableEq

/-- Tells whether an outcome is a normal `return` from inside the switch. -/
def SwitchOutcome.isReturn : SwitchOutcome → Bool
  | .returned _ => true
  | _ => false

/-- Embeds the four `case` bodies of the `switch (res.which ())` in `main`.
`SOLVER_VALUE` extracts `Result` and returns 0; `SOLVER_VALUE_WARNINGS`
extracts `ResultWithWarnings` and returns 0; `SOLVER_NO_SOLUTION` and
`SOLVER_ERROR` share one body that extracts `SolverError` and returns 2.
`some` means some case matched the tag; an extraction that raises makes the
case produce `SwitchOutcome.raised`. -/
def mainSwitchCase (res : SolverResult) : Option SwitchOutcome :=
  match res with
  | .value _ =>
      some (match getValue res with
        | some _ => .returned 0
        | none => .raised)
  | .valueWarnings _ _ =>
      some (match getValueWarnings res with
        | some _ => .returned 0
        | none => .raised)
  | .noSolution | .error _ =>
      some (match getSolverError res with
        | some _ => .returned 2
        | none => .raised)

/-- Embeds the tail of `main`: run the switch; if no case matched the tag,
control falls through to `assert (0); return 42;`. -/
def mainTail (res : SolverResult) : SwitchOutcome :=
  (mainSwitchCase res).getD .fellThrough

/-- The polynomial `fPoly` evaluates to `F::impl_compute`. -/
lemma eval_fPoly (x : Fin 4 → ℚ) : MvPolynomial.eval x fPoly = F.impl_compute x 0 := by
  simp [fPoly, F.impl_compute]

/-- The polynomial `g0Poly` evaluates to `G0::impl_compute`. -/
lemma eval_g0Poly (x : Fin 4 → ℚ) : MvPolynomial.eval x g0Poly = G0.impl_compute x 0 := by
  simp [g0Poly, G0.impl_compute]

/-- The polynomial `g1Poly` evaluates to `G1::impl_compute`. -/
lemma eval_g1Poly (x : Fin 4 → ℚ) : MvPolynomial.eval x g1Poly = G1.impl_compute x 0 := by
  simp [g1Poly, G1.impl_compute]

/-- C1 (code bug): the claim that all three Hessians are symmetric fails on
the source.  `F::impl_hessian` streams `x[1]` into entry `(2,3)` but `x[0]`
into entry `(3,2)`, so at `x = (0,1,0,0)` the matrix is not symmetric.  The
Hessians of `G0` and `G1` are symmetric for every `x`. -/
theorem hessian_symmetry_status :
    (F.impl_hessian ![0, 1, 0, 0] 2 3 = 1 ∧ F.impl_hessian ![0, 1, 0, 0] 3 2 = 0) ∧
    (∀ (x : Fin 4 → ℚ) (a b : Fin 4), G0.impl_hessian x a b = G0.impl_hessian x b a) ∧
    (∀ (x : Fin 4 → ℚ) (a b : Fin 4), G1.impl_hessian x a b = G1.impl_hessian x b a) := by
  refine ⟨⟨by decide, by decide⟩, ?_, ?_⟩ <;>
    intro x a b <;> fin_cases a <;> fin_cases b <;> rfl

/-- C2 (code bug): `F`'s Hessian does not equal the matrix of exact second
partial derivatives of `F`'s compute.  Entry `(2,3)` of `F::impl_hessian` is
`x[1]`, while the exact second partial derivative of the objective with
respect to `x₂` and `x₃` is `x₀`; at `x = (0,1,0,0)` the code yields `1`
and the exact derivative `0`.  Every other entry matches the exact second
partial derivative for every `x`. -/
theorem F_hessian_exactness_status :
    (∀ x : Fin 4 → ℚ, MvPolynomial.eval x fPoly = F.impl_compute x 0) ∧
    (F.impl_hessian ![0, 1, 0, 0] 2 3 = 1 ∧
      MvPolynomial.eval (![0, 1, 0, 0] : Fin 4 → ℚ)
        (MvPolynomial.pderiv 2 (MvPolynomial.pderiv 3 fPoly)) = 0) ∧
    (∀ (x : Fin 4 → ℚ) (a b : Fin 4), ¬(a = 2 ∧ b = 3) →
      F.impl_hessian x a b =
        MvPolynomial.eval x (MvPolynomial.pderiv a (MvPolynomial.pderiv b fPoly))) := by
  refine ⟨eval_fPoly, ⟨by decide, ?_⟩, ?_⟩
  · simp [fPoly, MvPolynomial.pderiv_mul, map_add]
  · intro x a b h
    fin_cases a <;> fin_cases b <;>
      first
        | exact absurd (by decide) h
        | (simp [fPoly, F.impl_hessian, MvPolynomial.pderiv_mul, map_add]; try ring)

/-- Witness for `F_hessian_exactness_status`: the exclusion hypothesis is
discharged at the concrete entry `(0,3)` and input `(1,5,5,1)`. -/
theorem F_hessian_exactness_status_witness :
    F.impl_hessian ![1, 5, 5, 1] 0 3 =
      MvPolynomial.eval (![1, 5, 5, 1] : Fin 4 → ℚ)
        (MvPolynomial.pderiv 0 (MvPolynomial.pderiv 3 fPoly)) :=
  F_hessian_exactness_status.2.2 ![1, 5, 5, 1] 0 3 (by decide)

/-- C4: each function's gradient is the vector of exact first partial
derivatives (in the sense of `MvPolynomial.pderiv`) of a polynomial that
evaluates to that function's compute. -/
theorem gradients_exact :
    (∀ x : Fin 4 → ℚ, MvPolynomial.eval x fPoly = F.impl_compute x 0) ∧
    (∀ (x : Fin 4 → ℚ) (a : Fin 4),
      F.impl_gradient x a = MvPolynomial.eval x (MvPolynomial.pderiv a fPoly)) ∧
    (∀ x : Fin 4 → ℚ, MvPolynomial.eval x g0Poly = G0.impl_compute x 0) ∧
    (∀ (x : Fin 4 → ℚ) (a : Fin 4),
      G0.impl_gradient x a = MvPolynomial.eval x (MvPolynomial.pderiv a g0Poly)) ∧
    (∀ x : Fin 4 → ℚ, MvPolynomial.eval x g1Poly = G1.impl_compute x 0) ∧
    (∀ (x : Fin 4 → ℚ) (a : Fin 4),
      G1.impl_gradient x a = MvPolynomial.eval x (MvPolynomial.pderiv a g1Poly)) := by
  refine ⟨eval_fPoly, ?_, eval_g0Poly, ?_, eval_g1Poly, ?_⟩ <;>
    intro x a <;> fin_cases a <;>
    simp [fPoly, g0Poly, g1Poly, F.impl_gradient, G0.impl_gradient, G1.impl_gradient,
      MvPolynomial.pderiv_mul, map_add] <;>
    ring

/-- C5: the three compute operations return the HS71 objective and
constraint values, each as a single-component output (`outputSize = 1`). -/
theorem computes_and_output_sizes :
    (∀ x : Fin 4 → ℚ, F.impl_compute x 0 = x 0 * x 3 * (x 0 + x 1 + x 2) + x 2) ∧
    (∀ x : Fin 4 → ℚ, G0.impl_compute x 0 = x 0 * x 1 * x 2 * x 3) ∧
    (∀ x : Fin 4 → ℚ, G1.impl_compute x 0 = x 0 ^ 2 + x 1 ^ 2 + x 2 ^ 2 + x 3 ^ 2) ∧
    Func.outputSize Func.F = 1 ∧ Func.outputSize Func.G0 = 1 ∧
    Func.outputSize Func.G1 = 1 := by
  refine ⟨fun x => rfl, fun x => rfl, fun x => ?_, rfl, rfl, rfl⟩
  simp only [G1.impl_compute]
  ring

/-- C6: after assembly and before dispatch the problem has exactly
`inputSize = 4` argument bounds, every one equal to `[1, 5]`, and the
starting point is the vector `(1, 5, 5, 1)` of length 4. -/
theorem argument_bounds_and_start :
    pb4.argumentBounds.length = pb4.objective.inputSize ∧
    pb4.objective.inputSize = 4 ∧
    (∀ b ∈ pb4.argumentBounds, b = makeInterval 1 5) ∧
    pb4.startingPoint = some [1, 5, 5, 1] ∧
    ([(1 : ℚ), 5, 5, 1]).length = 4 := by
  refine ⟨by decide, by decide, by decide, by decide, by decide⟩

/-- C7: the constraint sequence holds exactly two entries in insertion
order: `G0` with bound `[25, +oo)` and scale 1, then `G1` with bound
`[40, 40]` and scale 1; each bounds and scales list has length
`outputSize = 1`. -/
theorem constraints_assembled :
    pb4.constraints =
      [⟨Func.G0, [makeLowerInterval 25], [1]⟩,
       ⟨Func.G1, [makeInterval 40 40], [1]⟩] ∧
    pb4.constraints.length = 2 ∧
    (∀ c ∈ pb4.constraints,
      c.bounds.length = c.func.outputSize ∧
      c.scales.length = c.func.outputSize) := by
  refine ⟨by decide, by decide, by decide⟩

/-- C8: the shared-`inputSize` and `outputSize = 1` invariant holds at every
intermediate state of the assembly in `main`, construction through dispatch,
with the common input size equal to 4. -/
theorem problem_invariant_all_stages :
    pb0.invariantHolds ∧ pb1.invariantHolds ∧ pb2.invariantHolds ∧
    pb3.invariantHolds ∧ pb4.invariantHolds ∧
    pb4.objective.inputSize = 4 ∧
    (∀ c ∈ pb4.constraints, c.func.inputSize = 4) := by
  refine ⟨by decide, by decide, by decide, by decide, by decide, by decide, by decide⟩

/-- C9: at the starting point `(1, 5, 5, 1)` the equality constraint `G1`
evaluates to 52, outside its bound interval `[40, 40]`, while the inequality
constraint `G0` evaluates to exactly 25, the lower endpoint of `[25, +oo)`:
the starting point is infeasible for the equality constraint. -/
theorem starting_point_feasibility :
    G1.impl_compute startVec 0 = 52 ∧
    (makeInterval 40 40).contains (G1.impl_compute startVec 0) = false ∧
    G0.impl_compute startVec 0 = 25 ∧
    (makeLowerInterval 25).lower = some 25 ∧
    (makeLowerInterval 25).contains (G0.impl_compute startVec 0) = true := by
  have h1 : G1.impl_compute startVec 0 = 52 := by
    norm_num [G1.impl_compute, startVec]
  have h0 : G0.impl_compute startVec 0 = 25 := by
    norm_num [G0.impl_compute, startVec]
  refine ⟨h1, ?_, h0, rfl, ?_⟩ <;>
    simp only [h1, h0] <;>
    norm_num [Interval.contains, makeInterval, makeLowerInterval]

/-- C3 (code bug): on a result tagged `SOLVER_NO_SOLUTION` the shared case
body runs `boost::get<SolverError> (res)`, but the variant holds the
payload-free `NoSolution` alternative, so the extraction raises instead of
returning 2.  The other three tags extract their alternative successfully
and return 0, 0 and 2 respectively. -/
theorem switch_noSolution_raises :
    getSolverError SolverResult.noSolution = none ∧
    mainTail SolverResult.noSolution = SwitchOutcome.raised ∧
    (∀ r, mainTail (SolverResult.value r) = SwitchOutcome.returned 0) ∧
    (∀ r w, mainTail (SolverResult.valueWarnings r w) = SwitchOutcome.returned 0) ∧
    (∀ m, mainTail (SolverResult.error m) = SwitchOutcome.returned 2) :=
  ⟨rfl, rfl, fun _ => rfl, fun _ _ => rfl, fun _ => rfl⟩

/-- Counterexample for C10 as stated: at the concrete result
`SolverResult.noSolution`, `main` does not return from inside the switch —
the case body raises. -/
theorem mainTail_noSolution_not_return :
    (mainTail SolverResult.noSolution).isReturn = false ∧
    mainTail SolverResult.noSolution = SwitchOutcome.raised :=
  ⟨rfl, rfl⟩

/-- C10 (amended): for every result carrying one of the four tags, control
never reaches the trailing `assert (0); return 42;` — the `value`,
`valueWarnings` and `error` tags return from inside the switch and the
`noSolution` tag raises out of it. -/
theorem switch_never_falls_through :
    (∀ res, mainTail res ≠ SwitchOutcome.fellThrough) ∧
    (∀ res, (mainTail res).isReturn = true ∨ mainTail res = SwitchOutcome.raised) := by
  constructor <;> intro res <;> cases res <;> simp [mainTail, mainSwitchCase,
    getValue, getValueWarnings, getSolverError, SwitchOutcome.isReturn]

end HS71
